import Mathlib

set_option autoImplicit false

/-!
Verification of the ModSync synchronization orchestrator.

Shallow embedding of `src/sync/torrent.rs` (`manage_torrent_task`) and
`src/ui/config_panel.rs` (`ConfigPanel::draw_refresh_button`,
`ConfigPanel::draw_verify_button`).

Modelling decisions, each tied to the source:
- `AppConfig` (from `crate::config`, used field-by-field in `torrent.rs` and
  `config_panel.rs`): `download_path : String` models the `PathBuf`
  (`as_os_str().is_empty()` becomes `= ""`, `to_string_lossy().into_owned()`
  is the identity); the optional KB/s speeds are optional unbounded naturals,
  since the spec gives no width for them ("optional positive integer, KB/s").
- The Rust cast `(s * 1024) as u32` truncates modulo 2^32 for any wider
  unsigned source type; it is embedded as `% 4294967296`.
- `NonZeroU32::new v` is `none` when `v = 0`, else `some v`.
- The librqbit API handle is a record of two response functions
  (`forget`, `add`); an invocation is deterministic given those responses.
- The run of `manage_torrent_task` is represented by the returned
  `Result`, the ordered list of everything sent on the UI channel
  (statuses and events interleaved in send order), and the ordered list of
  engine calls made. `ui_tx.send` / `send_sync_status_event` append one
  emission; send failures are ignored in the source, so the channel is
  modelled as always accepting.
- `anyhow`'s `.context(msg)` on an error `e` is modelled as the string
  `msg ++ ": " ++ e`.
- `println!` / `eprintln!` logging has no observable effect and is dropped.
-/

/-- Configuration record, as consumed by the torrent task and the panel. -/
structure AppConfig where
  torrent_url : String
  download_path : String
  should_seed : Bool
  max_download_speed : Option Nat
  max_upload_speed : Option Nat
  deriving DecidableEq

/-- Status values from `crate::ui::utils::SyncStatus` (the variants used in these files). -/
inductive SyncStatus where
  | Idle : SyncStatus
  | UpdatingTorrent : SyncStatus
  | Error : String → SyncStatus
  deriving DecidableEq

/-- Events from `crate::sync::messages::SyncEvent` (the variants used in these files). -/
inductive SyncEvent where
  | TorrentAdded : Nat → SyncEvent
  | Error : String → SyncEvent
  deriving DecidableEq

/-- One send on the UI channel: either a status (via `send_sync_status_event`)
or an event (via `ui_tx.send`), in send order. -/
inductive Emission where
  | status : SyncStatus → Emission
  | event : SyncEvent → Emission
  deriving DecidableEq

/-- `librqbit::limits::LimitsConfig`: optional strictly positive byte rates. -/
structure LimitsConfig where
  download_bps : Option Nat
  upload_bps : Option Nat
  deriving DecidableEq

/-- The fields of `librqbit::AddTorrentOptions` that `manage_torrent_task` sets
(the rest stay at their defaults and are never read by this code). -/
structure AddTorrentOptions where
  output_folder : Option String
  overwrite : Bool
  paused : Bool
  ratelimits : LimitsConfig
  deriving DecidableEq

/-- The add response: `response.id` is the optional engine identifier. -/
structure AddResponse where
  id : Option Nat
  deriving DecidableEq

/-- One call made to the librqbit API handle, with its arguments. -/
inductive ApiCall where
  | forget : Nat → ApiCall
  | add : List Nat → AddTorrentOptions → ApiCall
  deriving DecidableEq

/-- The engine handle: responses of `api_torrent_action_forget` and
`api_add_torrent` for this invocation. Errors are carried as their message. -/
structure Api where
  forget : Nat → Except String Unit
  add : List Nat → AddTorrentOptions → Except String AddResponse

/-- Everything observable about one invocation of `manage_torrent_task`:
its return value, the UI-channel sends in order, and the engine calls in order. -/
structure RunResult where
  ret : Except String (Option Nat)
  emitted : List Emission
  calls : List ApiCall

/-- Truncating Rust cast target: 2^32. -/
def U32_MOD : Nat := 4294967296

/-- `NonZeroU32::new`: `none` on zero, `some v` otherwise. -/
def nonZeroU32New (v : Nat) : Option Nat :=
  if v = 0 then none else some v

/-- The closure `|s| NonZeroU32::new((s * 1024) as u32)` applied to one KB/s value. -/
def kbToBps (s : Nat) : Option Nat :=
  nonZeroU32New (s * 1024 % U32_MOD)

/-- The `LimitsConfig` built at torrent.rs lines 78-88:
`and_then` on each optional speed is `Option.bind`. -/
def mkRatelimits (cfg : AppConfig) : LimitsConfig :=
  { download_bps := cfg.max_download_speed.bind kbToBps
    upload_bps := cfg.max_upload_speed.bind kbToBps }

/-- The `AddTorrentOptions` built at torrent.rs lines 90-96. -/
def buildOptions (cfg : AppConfig) : AddTorrentOptions :=
  { output_folder := some cfg.download_path
    overwrite := true
    paused := !cfg.should_seed
    ratelimits := mkRatelimits cfg }

/-- Message of the event sent at torrent.rs line 51 when forgetting fails. -/
def forgetErrMsg (i : Nat) (e : String) : String :=
  "Error forgetting old torrent " ++ toString i ++ ": " ++ e

/-- Message built at torrent.rs line 65 for the empty-path guard. -/
def downloadPathMsg : String := "Download path not configured"

/-- Message built at torrent.rs line 121 when the add response has no id. -/
def noIdMsg : String := "Torrent added but API returned no ID"

/-- Context string attached at torrent.rs line 108 when the add call errors. -/
def addContextMsg : String := "Failed to add torrent via librqbit API"

/-- Phase 1 of `manage_torrent_task` (torrent.rs lines 35-54): if an id to
forget is present, send the `UpdatingTorrent` status, call forget, and on
failure send an `Error` event; returns (emissions, calls) of the phase. -/
def forgetPhase (api : Api) : Option Nat → List Emission × List ApiCall
  | none => ([], [])
  | some i =>
    match api.forget i with
    | Except.ok _ =>
      ([Emission.status SyncStatus.UpdatingTorrent], [ApiCall.forget i])
    | Except.error e =>
      ([Emission.status SyncStatus.UpdatingTorrent,
        Emission.event (SyncEvent.Error (forgetErrMsg i e))],
       [ApiCall.forget i])

/-- `manage_torrent_task` (torrent.rs lines 20-126), with the data flow made
explicit: forget phase, empty-path guard, `UpdatingTorrent` status, options
construction, add call, and the three add outcomes. -/
def manage_torrent_task (cfg : AppConfig) (api : Api) (prev : Option Nat)
    (content : List Nat) : RunResult :=
  let fp := forgetPhase api prev
  if cfg.download_path = "" then
    { ret := Except.ok none
      emitted := fp.1 ++ [Emission.event (SyncEvent.Error downloadPathMsg),
                          Emission.status (SyncStatus.Error downloadPathMsg)]
      calls := fp.2 }
  else
    let opts := buildOptions cfg
    let em2 := fp.1 ++ [Emission.status SyncStatus.UpdatingTorrent]
    let cs2 := fp.2 ++ [ApiCall.add content opts]
    match api.add content opts with
    | Except.error e =>
      { ret := Except.error (addContextMsg ++ ": " ++ e)
        emitted := em2
        calls := cs2 }
    | Except.ok resp =>
      match resp.id with
      | some i =>
        { ret := Except.ok (some i)
          emitted := em2 ++ [Emission.event (SyncEvent.TorrentAdded i),
                             Emission.status SyncStatus.Idle]
          calls := cs2 }
      | none =>
        { ret := Except.ok none
          emitted := em2 ++ [Emission.event (SyncEvent.Error noIdMsg),
                             Emission.status (SyncStatus.Error noIdMsg)]
          calls := cs2 }

/-- UI command messages sent by the configuration panel buttons. -/
inductive UiMessage where
  | TriggerManualRefresh : UiMessage
  | TriggerFolderVerify : UiMessage
  deriving DecidableEq

/-- The validity check duplicated in both button helpers
(config_panel.rs lines 55-56 and 72-73). -/
def is_config_valid (cfg : AppConfig) : Bool :=
  !(cfg.torrent_url = "") && !(cfg.download_path = "")

/-- `ConfigPanel::draw_refresh_button` (config_panel.rs lines 53-67): the
button is added with enabled flag `is_config_valid`; `clicked` is the user's
click this frame, and egui's `add_enabled` makes a disabled widget report no
click, so a command is sent only when the flag and the click coincide. -/
def draw_refresh_button (cfg : AppConfig) (clicked : Bool) : Option UiMessage :=
  if is_config_valid cfg && clicked then some UiMessage.TriggerManualRefresh
  else none

/-- `ConfigPanel::draw_verify_button` (config_panel.rs lines 70-84), same
shape as the refresh button with the other command. -/
def draw_verify_button (cfg : AppConfig) (clicked : Bool) : Option UiMessage :=
  if is_config_valid cfg && clicked then some UiMessage.TriggerFolderVerify
  else none

/-- Whether an emission is an `Error` event (not an `Error` status). -/
def isErrorEvent : Emission → Bool
  | Emission.event (SyncEvent.Error _) => true
  | _ => false

/-- Number of `Error` events in an emission trace. -/
def countErrorEvents (l : List Emission) : Nat :=
  (l.filter isErrorEvent).length

/-- Concrete configuration with an empty download path (the spec scenario
config with path equal to the empty string). -/
def cfgEmptyPath : AppConfig :=
  { torrent_url := "magnet:x"
    download_path := ""
    should_seed := false
    max_download_speed := some 500
    max_upload_speed := none }

/-- Concrete configuration with an empty torrent URL but a set path. -/
def cfgEmptyUrl : AppConfig :=
  { torrent_url := ""
    download_path := "/tmp/mods"
    should_seed := false
    max_download_speed := none
    max_upload_speed := none }

/-- Concrete configuration matching the spec scenario: url "magnet:x",
path "/tmp/mods", seed false, up none, down 500 KB/s. -/
def cfgGood : AppConfig :=
  { torrent_url := "magnet:x"
    download_path := "/tmp/mods"
    should_seed := false
    max_download_speed := some 500
    max_upload_speed := none }

/-- Engine double: forget succeeds, add succeeds with identifier 42. -/
def apiOkSome : Api :=
  { forget := fun _ => Except.ok ()
    add := fun _ _ => Except.ok { id := some 42 } }

/-- Engine double: forget fails with "boom", add succeeds with identifier 42. -/
def apiForgetFails : Api :=
  { forget := fun _ => Except.error "boom"
    add := fun _ _ => Except.ok { id := some 42 } }

/-- Engine double: forget succeeds, add fails with "down". -/
def apiAddFails : Api :=
  { forget := fun _ => Except.ok ()
    add := fun _ _ => Except.error "down" }

/-- Engine double: forget succeeds, add succeeds but carries no identifier. -/
def apiAddNoId : Api :=
  { forget := fun _ => Except.ok ()
    add := fun _ _ => Except.ok { id := none } }

/-- Error-event count distributes over trace concatenation. -/
theorem countErrorEvents_append (a b : List Emission) :
    countErrorEvents (a ++ b) = countErrorEvents a + countErrorEvents b := by
  simp [countErrorEvents, List.filter_append]

/-- The forget phase emits an `Error` event exactly when a previous id was
supplied and the forget call failed. -/
theorem forgetPhase_error_count (api : Api) (prev : Option Nat) :
    countErrorEvents (forgetPhase api prev).1 =
      (match prev with
       | none => 0
       | some i =>
         match api.forget i with
         | Except.ok _ => 0
         | Except.error _ => 1) := by
  rcases prev with _ | i
  · simp [forgetPhase, countErrorEvents]
  · rcases hf : api.forget i with e | u <;>
      simp [forgetPhase, hf, countErrorEvents, isErrorEvent]

/-- The forget phase never emits the `Idle` status. -/
theorem forgetPhase_no_idle (api : Api) (prev : Option Nat) :
    Emission.status SyncStatus.Idle ∉ (forgetPhase api prev).1 := by
  rcases prev with _ | i
  · simp [forgetPhase]
  · rcases hf : api.forget i with e | u <;> simp [forgetPhase, hf]

/-- The forget phase never performs an add call. -/
theorem forgetPhase_no_add (api : Api) (prev : Option Nat) (c : List Nat)
    (o : AddTorrentOptions) :
    ApiCall.add c o ∉ (forgetPhase api prev).2 := by
  rcases prev with _ | i
  · simp [forgetPhase]
  · rcases hf : api.forget i with e | u <;> simp [forgetPhase, hf]

/-- C1: for every configuration with empty destination path,
`manage_torrent_task` returns `Ok(None)`, the path guard emits exactly one
`Error` event followed by the final `Error` status, and any extra `Error`
event comes earlier, from the forget phase, exactly when a previous id was
supplied and its forget call failed. -/
theorem empty_path_ok_none_single_error (cfg : AppConfig) (api : Api)
    (prev : Option Nat) (content : List Nat)
    (h : cfg.download_path = "") :
    (manage_torrent_task cfg api prev content).ret = Except.ok none ∧
    (manage_torrent_task cfg api prev content).emitted =
      (forgetPhase api prev).1 ++
        [Emission.event (SyncEvent.Error downloadPathMsg),
         Emission.status (SyncStatus.Error downloadPathMsg)] ∧
    countErrorEvents (manage_torrent_task cfg api prev content).emitted =
      1 + countErrorEvents (forgetPhase api prev).1 ∧
    countErrorEvents (forgetPhase api prev).1 =
      (match prev with
       | none => 0
       | some i =>
         match api.forget i with
         | Except.ok _ => 0
         | Except.error _ => 1) ∧
    (manage_torrent_task cfg api prev content).emitted.getLast? =
      some (Emission.status (SyncStatus.Error downloadPathMsg)) := by
  refine ⟨?_, ?_, ?_, forgetPhase_error_count api prev, ?_⟩ <;>
    simp [manage_torrent_task, h, countErrorEvents_append,
      countErrorEvents, isErrorEvent, List.getLast?_append, Nat.add_comm]

/-- Witness for C1: empty path with a supplied previous id whose forget call
fails gives `Ok(None)`, two `Error` events in total (the forget one first),
and a final `Error` status. -/
theorem empty_path_ok_none_single_error_witness :
    (manage_torrent_task cfgEmptyPath apiForgetFails (some 7) []).ret =
      Except.ok none ∧
    countErrorEvents
      (manage_torrent_task cfgEmptyPath apiForgetFails (some 7) []).emitted = 2 ∧
    (manage_torrent_task cfgEmptyPath apiForgetFails (some 7) []).emitted.getLast? =
      some (Emission.status (SyncStatus.Error downloadPathMsg)) := by
  have h := empty_path_ok_none_single_error cfgEmptyPath apiForgetFails (some 7) [] rfl
  exact ⟨h.1, by rw [h.2.2.1, h.2.2.2.1]; rfl, h.2.2.2.2⟩

/-- C9: with no previous identifier and an empty destination path, the trace
is exactly one `Error` event followed by the `Error` status (so no
`UpdatingTorrent` status), and no engine call at all is made. -/
theorem no_prev_empty_path_trace (cfg : AppConfig) (api : Api)
    (content : List Nat) (h : cfg.download_path = "") :
    (manage_torrent_task cfg api none content).emitted =
      [Emission.event (SyncEvent.Error downloadPathMsg),
       Emission.status (SyncStatus.Error downloadPathMsg)] ∧
    (manage_torrent_task cfg api none content).calls = [] := by
  constructor <;> simp [manage_torrent_task, forgetPhase, h]

/-- Witness for C9 at the concrete empty-path configuration. -/
theorem no_prev_empty_path_trace_witness :
    (manage_torrent_task cfgEmptyPath apiOkSome none []).emitted =
      [Emission.event (SyncEvent.Error downloadPathMsg),
       Emission.status (SyncStatus.Error downloadPathMsg)] ∧
    (manage_torrent_task cfgEmptyPath apiOkSome none []).calls = [] :=
  no_prev_empty_path_trace cfgEmptyPath apiOkSome [] rfl

/-- Counterexample for C8: at a concrete empty-path invocation the guard's
emissions carry the message "Download path not configured", and no emission
carries "destination not configured" as the claim states. -/
theorem path_guard_message_counterexample :
    (manage_torrent_task cfgEmptyPath apiOkSome none []).emitted =
      [Emission.event (SyncEvent.Error "Download path not configured"),
       Emission.status (SyncStatus.Error "Download path not configured")] ∧
    Emission.event (SyncEvent.Error "destination not configured") ∉
      (manage_torrent_task cfgEmptyPath apiOkSome none []).emitted ∧
    Emission.status (SyncStatus.Error "destination not configured") ∉
      (manage_torrent_task cfgEmptyPath apiOkSome none []).emitted := by
  refine ⟨?_, ?_, ?_⟩ <;> decide

/-- C8 as amended: for every invocation with an empty destination path, the
`Error` event and the `Error` status emitted by the path guard carry the
message "Download path not configured". -/
theorem path_guard_message (cfg : AppConfig) (api : Api) (prev : Option Nat)
    (content : List Nat) (h : cfg.download_path = "") :
    (manage_torrent_task cfg api prev content).emitted =
      (forgetPhase api prev).1 ++
        [Emission.event (SyncEvent.Error "Download path not configured"),
         Emission.status (SyncStatus.Error "Download path not configured")] := by
  simp [manage_torrent_task, h, downloadPathMsg]

/-- Witness for amended C8 at a concrete empty-path invocation. -/
theorem path_guard_message_witness :
    (manage_torrent_task cfgEmptyPath apiOkSome (some 3) []).emitted =
      (forgetPhase apiOkSome (some 3)).1 ++
        [Emission.event (SyncEvent.Error "Download path not configured"),
         Emission.status (SyncStatus.Error "Download path not configured")] :=
  path_guard_message cfgEmptyPath apiOkSome (some 3) [] rfl

/-- Counterexample for C2: at 4194305 KB/s the product 4294968320 B/s does
not fit an unsigned 32-bit value, yet the translated limit is not absent: the
Rust cast truncates modulo 2^32 and the engine receives 1024 B/s. -/
theorem rate_limit_overflow_counterexample :
    U32_MOD ≤ 4194305 * 1024 ∧
    Option.bind (some 4194305) kbToBps = some 1024 ∧
    Option.bind (some 4194305) kbToBps ≠ none := by
  refine ⟨by decide, ?_, ?_⟩ <;> decide

/-- C2 as amended: absent or zero KB/s inputs translate to an absent limit,
and an input whose product with 1024 fits the unsigned 32-bit range
translates to exactly that product; but an overflowing product is truncated
modulo 2^32 (yielding that truncated rate, or absent when the truncation is
zero), not collapsed to absent. -/
theorem rate_limit_translation (r : Option Nat) :
    (r = none → Option.bind r kbToBps = none) ∧
    (r = some 0 → Option.bind r kbToBps = none) ∧
    (∀ s, r = some s → 0 < s → s * 1024 < U32_MOD →
      Option.bind r kbToBps = some (s * 1024)) ∧
    (∀ s, r = some s →
      Option.bind r kbToBps =
        if s * 1024 % U32_MOD = 0 then none else some (s * 1024 % U32_MOD)) := by
  refine ⟨?_, ?_, ?_, ?_⟩
  · rintro rfl; rfl
  · rintro rfl; rfl
  · rintro s rfl hs hlt
    have hmod : s * 1024 % U32_MOD = s * 1024 := Nat.mod_eq_of_lt hlt
    have hne : s * 1024 ≠ 0 := by positivity
    simp [kbToBps, nonZeroU32New, hmod, hne]
  · rintro s rfl
    simp [kbToBps, nonZeroU32New]

/-- Witness for amended C2: 500 KB/s translates to exactly 512000 B/s. -/
theorem rate_limit_translation_witness :
    Option.bind (some 500) kbToBps = some 512000 :=
  (rate_limit_translation (some 500)).2.2.1 500 rfl (by decide) (by decide)

/-- C3: when a previous id is supplied and its forget call fails, the add
call is still invoked (with the options built from the configuration), and
the invocation's result is an error exactly when the add call itself errors
(carrying the add context), never because of the forget failure. -/
theorem forget_failure_still_adds (cfg : AppConfig) (api : Api) (i : Nat)
    (content : List Nat) (e : String)
    (hp : cfg.download_path ≠ "")
    (hf : api.forget i = Except.error e) :
    ApiCall.add content (buildOptions cfg) ∈
      (manage_torrent_task cfg api (some i) content).calls ∧
    (match api.add content (buildOptions cfg) with
     | Except.error e2 =>
       (manage_torrent_task cfg api (some i) content).ret =
         Except.error (addContextMsg ++ ": " ++ e2)
     | Except.ok _ =>
       ∃ v, (manage_torrent_task cfg api (some i) content).ret =
         Except.ok v) := by
  constructor
  · rcases ha : api.add content (buildOptions cfg) with e2 | resp
    · simp [manage_torrent_task, forgetPhase, hp, hf, ha]
    · rcases hid : resp.id with _ | j <;>
        simp [manage_torrent_task, forgetPhase, hp, hf, ha, hid]
  · rcases ha : api.add content (buildOptions cfg) with e2 | resp
    · simp [manage_torrent_task, forgetPhase, hp, hf, ha]
    · rcases hid : resp.id with _ | j <;>
        simp [manage_torrent_task, forgetPhase, hp, hf, ha, hid]

/-- Witness for C3: forget fails with "boom", yet the add call appears among
the engine calls and the invocation returns `Ok`. -/
theorem forget_failure_still_adds_witness :
    ApiCall.add [] (buildOptions cfgGood) ∈
      (manage_torrent_task cfgGood apiForgetFails (some 7) []).calls ∧
    (manage_torrent_task cfgGood apiForgetFails (some 7) []).ret =
      Except.ok (some 42) := by
  have h := forget_failure_still_adds cfgGood apiForgetFails 7 [] "boom"
    (by decide) rfl
  exact ⟨h.1, rfl⟩

/-- C4: when the add call succeeds with identifier `i`, the trace ends with
an `UpdatingTorrent` status, then the `TorrentAdded i` event, then the final
`Idle` status, and the invocation returns `Ok(Some i)`. -/
theorem add_success_order (cfg : AppConfig) (api : Api) (prev : Option Nat)
    (content : List Nat) (i : Nat)
    (hp : cfg.download_path ≠ "")
    (ha : api.add content (buildOptions cfg) = Except.ok { id := some i }) :
    (manage_torrent_task cfg api prev content).ret = Except.ok (some i) ∧
    (manage_torrent_task cfg api prev content).emitted =
      (forgetPhase api prev).1 ++
        [Emission.status SyncStatus.UpdatingTorrent,
         Emission.event (SyncEvent.TorrentAdded i),
         Emission.status SyncStatus.Idle] := by
  constructor <;> simp [manage_torrent_task, hp, ha]

/-- Witness for C4 at the spec scenario: previous id 7, forget succeeds, add
returns id 42; the tail of the trace is `UpdatingTorrent`,
`TorrentAdded 42`, `Idle` and the result is `Ok(Some 42)`. -/
theorem add_success_order_witness :
    (manage_torrent_task cfgGood apiOkSome (some 7) []).ret =
      Except.ok (some 42) ∧
    (manage_torrent_task cfgGood apiOkSome (some 7) []).emitted =
      (forgetPhase apiOkSome (some 7)).1 ++
        [Emission.status SyncStatus.UpdatingTorrent,
         Emission.event (SyncEvent.TorrentAdded 42),
         Emission.status SyncStatus.Idle] :=
  add_success_order cfgGood apiOkSome (some 7) [] 42 (by decide) rfl

/-- C5: when the add call itself errors, the invocation returns that error
annotated with the add context message, and no `Idle` status appears
anywhere in the trace. -/
theorem add_failure_propagates (cfg : AppConfig) (api : Api)
    (prev : Option Nat) (content : List Nat) (e : String)
    (hp : cfg.download_path ≠ "")
    (ha : api.add content (buildOptions cfg) = Except.error e) :
    (manage_torrent_task cfg api prev content).ret =
      Except.error (addContextMsg ++ ": " ++ e) ∧
    Emission.status SyncStatus.Idle ∉
      (manage_torrent_task cfg api prev content).emitted := by
  constructor
  · simp [manage_torrent_task, hp, ha]
  · have hfp := forgetPhase_no_idle api prev
    simp [manage_torrent_task, hp, ha]
    simpa using hfp

/-- Witness for C5: the failing add returns the contextual error and the
trace contains no `Idle` status. -/
theorem add_failure_propagates_witness :
    (manage_torrent_task cfgGood apiAddFails (some 7) []).ret =
      Except.error (addContextMsg ++ ": " ++ "down") ∧
    Emission.status SyncStatus.Idle ∉
      (manage_torrent_task cfgGood apiAddFails (some 7) []).emitted :=
  add_failure_propagates cfgGood apiAddFails (some 7) [] "down" (by decide) rfl

/-- C6: when the add call succeeds but the response carries no identifier,
the trace ends with an `Error` event followed by the final `Error` status
(message "Torrent added but API returned no ID"), and the invocation
returns `Ok(None)`, not an error. -/
theorem add_no_id_soft_error (cfg : AppConfig) (api : Api)
    (prev : Option Nat) (content : List Nat)
    (hp : cfg.download_path ≠ "")
    (ha : api.add content (buildOptions cfg) = Except.ok { id := none }) :
    (manage_torrent_task cfg api prev content).ret = Except.ok none ∧
    (manage_torrent_task cfg api prev content).emitted =
      (forgetPhase api prev).1 ++
        [Emission.status SyncStatus.UpdatingTorrent,
         Emission.event (SyncEvent.Error noIdMsg),
         Emission.status (SyncStatus.Error noIdMsg)] ∧
    (manage_torrent_task cfg api prev content).emitted.getLast? =
      some (Emission.status (SyncStatus.Error noIdMsg)) := by
  refine ⟨?_, ?_, ?_⟩ <;>
    simp [manage_torrent_task, hp, ha, List.getLast?_append]

/-- Witness for C6: the no-identifier response yields `Ok(None)` with a
final `Error` status. -/
theorem add_no_id_soft_error_witness :
    (manage_torrent_task cfgGood apiAddNoId none []).ret = Except.ok none ∧
    (manage_torrent_task cfgGood apiAddNoId none []).emitted =
      (forgetPhase apiAddNoId none).1 ++
        [Emission.status SyncStatus.UpdatingTorrent,
         Emission.event (SyncEvent.Error noIdMsg),
         Emission.status (SyncStatus.Error noIdMsg)] ∧
    (manage_torrent_task cfgGood apiAddNoId none []).emitted.getLast? =
      some (Emission.status (SyncStatus.Error noIdMsg)) :=
  add_no_id_soft_error cfgGood apiAddNoId none [] (by decide) rfl

/-- C7: every add call an invocation makes uses options whose output folder
is the configured destination path, whose overwrite flag is true, whose
paused flag is the negation of the seeding preference, and whose rate limits
are the KB/s translation applied independently to each direction. -/
theorem add_options_shape (cfg : AppConfig) (api : Api) (prev : Option Nat)
    (content : List Nat) (c : List Nat) (o : AddTorrentOptions)
    (hmem : ApiCall.add c o ∈ (manage_torrent_task cfg api prev content).calls) :
    o.output_folder = some cfg.download_path ∧
    o.overwrite = true ∧
    o.paused = !cfg.should_seed ∧
    o.ratelimits.download_bps = cfg.max_download_speed.bind kbToBps ∧
    o.ratelimits.upload_bps = cfg.max_upload_speed.bind kbToBps := by
  have hin : ApiCall.add c o ∈ (forgetPhase api prev).2 ∨
      o = buildOptions cfg := by
    by_cases hp : cfg.download_path = ""
    · exact Or.inl (by simpa [manage_torrent_task, hp] using hmem)
    · rcases ha : api.add content (buildOptions cfg) with e | resp
      · have := hmem
        simp [manage_torrent_task, hp, ha] at this
        rcases this with h1 | h2
        · exact Or.inl h1
        · exact Or.inr h2.2
      · rcases hid : resp.id with _ | j
        all_goals
          have := hmem
          simp [manage_torrent_task, hp, ha, hid] at this
          rcases this with h1 | h2
          · exact Or.inl h1
          · exact Or.inr h2.2
  rcases hin with h1 | h2
  · exact absurd h1 (forgetPhase_no_add api prev c o)
  · subst h2
    simp [buildOptions, mkRatelimits]

/-- Witness for C7 at the spec scenario options: seed false gives
paused true, and 500 KB/s down gives a 512000 B/s download limit. -/
theorem add_options_shape_witness :
    (buildOptions cfgGood).output_folder = some "/tmp/mods" ∧
    (buildOptions cfgGood).overwrite = true ∧
    (buildOptions cfgGood).paused = true ∧
    (buildOptions cfgGood).ratelimits.download_bps = some 512000 ∧
    (buildOptions cfgGood).ratelimits.upload_bps = none := by
  have h := add_options_shape cfgGood apiOkSome none [] []
    (buildOptions cfgGood) (by decide)
  exact ⟨h.1, h.2.1, h.2.2.1, by rw [h.2.2.2.1]; rfl, by rw [h.2.2.2.2]; rfl⟩

/-- C10: the panel's refresh and verify buttons send their commands only
when the saved configuration is valid (both the torrent URL and the download
path non-empty); with an empty URL or an empty path the validity flag is
false and neither helper can send a command; moreover each helper only ever
sends its own command. -/
theorem config_panel_commands_require_valid (cfg : AppConfig) (click : Bool)
    (m : UiMessage) :
    ((draw_refresh_button cfg click = some m ∨
      draw_verify_button cfg click = some m) →
        cfg.torrent_url ≠ "" ∧ cfg.download_path ≠ "") ∧
    (draw_refresh_button cfg click = some m →
        m = UiMessage.TriggerManualRefresh) ∧
    (draw_verify_button cfg click = some m →
        m = UiMessage.TriggerFolderVerify) ∧
    ((cfg.torrent_url = "" ∨ cfg.download_path = "") →
        is_config_valid cfg = false ∧
        draw_refresh_button cfg click = none ∧
        draw_verify_button cfg click = none) := by
  have hvalid : is_config_valid cfg = true ↔
      cfg.torrent_url ≠ "" ∧ cfg.download_path ≠ "" := by
    simp [is_config_valid]
  refine ⟨?_, ?_, ?_, ?_⟩
  · rintro (h | h)
    · by_cases hc : is_config_valid cfg && click
      · exact hvalid.mp (Bool.and_elim_left (by simpa using hc))
      · simp [draw_refresh_button, hc] at h
    · by_cases hc : is_config_valid cfg && click
      · exact hvalid.mp (Bool.and_elim_left (by simpa using hc))
      · simp [draw_verify_button, hc] at h
  · intro h
    by_cases hc : is_config_valid cfg && click
    · simp [draw_refresh_button, hc] at h
      exact h.symm
    · simp [draw_refresh_button, hc] at h
  · intro h
    by_cases hc : is_config_valid cfg && click
    · simp [draw_verify_button, hc] at h
      exact h.symm
    · simp [draw_verify_button, hc] at h
  · intro h
    have hf : is_config_valid cfg = false := by
      rcases h with h | h <;> simp [is_config_valid, h]
    simp [draw_refresh_button, draw_verify_button, hf]

/-- Witness for C10: with an empty URL the refresh and verify helpers send
nothing even on a click. -/
theorem config_panel_commands_require_valid_witness :
    is_config_valid cfgEmptyUrl = false ∧
    draw_refresh_button cfgEmptyUrl true = none ∧
    draw_verify_button cfgEmptyUrl true = none :=
  (config_panel_commands_require_valid cfgEmptyUrl true
    UiMessage.TriggerManualRefresh).2.2.2 (Or.inl rfl)
